import Mathlib

/-!
Verification of the timelapse core of the time-capsule repository
(src/timelapse.py) against its natural-language specification.

The development shallowly embeds the relevant Python functions:

* the Sequencer (extract_year and the stable sort by year key,
  src/timelapse.py lines 33 to 43);
* the Video Encoder control flow (create_mp4_timelapse, lines 53 to 91),
  modelled as an event-trace semantics in which the fallible OpenCV calls
  are oracles, so that every exit path of the try/finally block is covered;
* the Batch Resolver (create_timelapse_video, lines 10 to 51) over an
  abstract file store;
* the Frame Compositor overlay (add_year_overlay, lines 95 to 121),
  modelled with an explicit buffer heap so that numpy array copies and
  in-place OpenCV mutations are visible.

Pixel channel values are Nat (8-bit channels, saturated at 255); year keys
are Int, as Python ints are unbounded.
-/

namespace TimeCapsule

/-! ### Sequencer: extract_year and the stable sort (timelapse.py lines 33 to 43)

Python splits the filename stem on the underscore, takes the last field and
applies int(); ValueError or IndexError yield the sentinel 0.  Strings are
modelled as their character lists; the integer parser below models int() on
the strings that can occur as a final underscore-delimited field: an
optional sign followed by ASCII digits.  (Python int() additionally strips
surrounding whitespace and allows underscore digit separators; a final
field never contains an underscore, and the whitespace case does not occur
in any claim.) -/

/-- Value of a list of ASCII digit characters read in base 10. -/
def digitsToNat (cs : List Char) : Nat :=
  cs.foldl (fun n c => 10 * n + (c.toNat - 48)) 0

/-- Does this nonempty character list consist only of ASCII digits? -/
def allDigits (cs : List Char) : Bool :=
  !cs.isEmpty && cs.all Char.isDigit

/-- Model of Python int(s) for a candidate year field: some value on an
optional sign followed by one or more ASCII digits, none otherwise
(the ValueError branch of extract_year). -/
def parseIntPy (cs : List Char) : Option Int :=
  match cs with
  | '-' :: rest => if allDigits rest then some (-(digitsToNat rest : Int)) else none
  | '+' :: rest => if allDigits rest then some ((digitsToNat rest : Int)) else none
  | _ => if allDigits cs then some ((digitsToNat cs : Int)) else none

/-- Split a character list on a separator character, Python str.split
semantics: the empty input yields one empty field, and separators at the
ends yield empty fields. -/
def splitOnChar (sep : Char) : List Char → List (List Char)
  | [] => [[]]
  | c :: cs =>
    match splitOnChar sep cs with
    | [] => [[]]
    | f :: fs => if c = sep then [] :: f :: fs else (c :: f) :: fs

/-- Characters of pathlib Path.stem: the filename without the suffix that
starts at the last dot.  A name without a dot is its own stem. -/
def stemChars : List Char → List Char
  | [] => []
  | c :: rest =>
    if '.' ∈ rest then c :: stemChars rest
    else if c = '.' then []
    else c :: stemChars rest

/-- Lines 34 to 40 of timelapse.py: split the stem on the underscore, parse
the last field as an int, and fall back to 0 on a parse failure. -/
def extract_year (filename : String) : Int :=
  match parseIntPy ((splitOnChar '_' (stemChars filename.toList)).getLastD []) with
  | some y => y
  | none => 0

/-- The sort key order used on line 42: compare files by extracted year. -/
def keyLe (a b : String) : Prop := extract_year a ≤ extract_year b

instance : DecidableRel keyLe := fun a b =>
  inferInstanceAs (Decidable (extract_year a ≤ extract_year b))

instance : IsTotal String keyLe :=
  ⟨fun a b => Int.le_total (extract_year a) (extract_year b)⟩

instance : IsTrans String keyLe := ⟨fun _ _ _ h h2 => le_trans h h2⟩

/-- Line 42, image_files.sort(key=extract_year): Python list.sort is a
stable sort by the key, which determines its output uniquely; insertion
sort by the same key is that stable sort. -/
def sortByYear (files : List String) : List String :=
  List.insertionSort keyLe files

/-! ### Video Encoder: event-trace model of create_mp4_timelapse (lines 53 to 91) -/

/-- A raster image: dimensions plus BGR pixel channels (model of a numpy
uint8 array of shape rows x cols x 3).  px x y is the pixel at column x,
row y, OpenCV point order. -/
structure Img where
  rows : Nat
  cols : Nat
  px : Nat → Nat → Nat × Nat × Nat

/-- Observable events of one encoder run: the cv2.VideoWriter constructor
call (which creates the output file when it succeeds), each
video_writer.write call tagged with its loop index, and
video_writer.release. -/
inductive Ev where
  | openContainer
  | writeFrame (i : Nat)
  | release
deriving DecidableEq

/-- Python exception classes raised by the modelled code. -/
inductive PyErr where
  | indexError
  | valueError
  | fileNotFoundError
  | cvError
deriving DecidableEq

/-- Oracle for the OpenCV calls of create_mp4_timelapse.  imread models
cv2.imread (returns none where the real call returns None; it is a function
of the path, so repeated reads of one file agree).  compositeRaises i
models any exception from cv2.resize or add_year_overlay at loop index i.
writeRaises i j models an exception of the j-th repeated
video_writer.write for loop index i.  openOk models whether cv2.VideoWriter
managed to open the container at a path; the source never consults it (the
constructor does not raise on failure, and isOpened is never called), so no
definition below reads this field. -/
structure CvEnv where
  imread : String → Option Img
  compositeRaises : Nat → Bool
  writeRaises : Nat → Nat → Bool
  openOk : String → Bool

/-- Lines 84 to 85: the inner for-range loop writing one composited frame
several times.  Returns the emitted writes and whether one raised. -/
def writeRepeat (env : CvEnv) (i : Nat) : List Nat → Except PyErr Unit × List Ev
  | [] => (.ok (), [])
  | j :: js =>
    if env.writeRaises i j then (.error .cvError, [])
    else
      let r := writeRepeat env i js
      (r.1, .writeFrame i :: r.2)

/-- Lines 68 to 85: the body of the try block.  For each (image_file, year)
pair at loop index i: imread, on None log a warning and continue; otherwise
resize and overlay (which may raise), then write the frame dur times. -/
def encodeLoop (env : CvEnv) (dur : Nat) :
    Nat → List (String × Int) → Except PyErr Unit × List Ev
  | _, [] => (.ok (), [])
  | i, (f, _) :: rest =>
    match env.imread f with
    | none => encodeLoop env dur (i + 1) rest
    | some _ =>
      if env.compositeRaises i then (.error .cvError, [])
      else
        let w := writeRepeat env i (List.range dur)
        match w.1 with
        | .error e => (.error e, w.2)
        | .ok _ =>
          let r := encodeLoop env dur (i + 1) rest
          (r.1, w.2 ++ r.2)

/-- Line 83: frame_duration = 2 if fps == 1 else max(1, fps // 2). -/
def frame_duration (fps : Nat) : Nat :=
  if fps = 1 then 2 else max 1 (fps / 2)

/-- Lines 53 to 91.  The first image is read before the container is opened
(empty list: IndexError from image_files[0]; unreadable first image:
ValueError).  Opening the writer emits openContainer; the try/finally block
appends release to the trace on both the normal and the exceptional exit,
and only then is the result (the output path, or the propagated exception)
returned. -/
def create_mp4_timelapse (env : CvEnv) (image_files : List String) (years : List Int)
    (output_path : String) (fps : Nat) : Except PyErr String × List Ev :=
  match image_files.head? with
  | none => (.error .indexError, [])
  | some f0 =>
    match env.imread f0 with
    | none => (.error .valueError, [])
    | some _ =>
      let dur := frame_duration fps
      let r := encodeLoop env dur 0 (image_files.zip years)
      let trace := Ev.openContainer :: r.2 ++ [Ev.release]
      match r.1 with
      | .ok _ => (.ok output_path, trace)
      | .error e => (.error e, trace)

/-- The writes emitted by a run in which no OpenCV call raises: frames whose
imread fails are skipped, every other frame at loop index i contributes dur
copies of writeFrame i, in order. -/
def expectedWrites (env : CvEnv) (dur : Nat) : Nat → List (String × Int) → List Ev
  | _, [] => []
  | i, (f, _) :: rest =>
    match env.imread f with
    | none => expectedWrites env dur (i + 1) rest
    | some _ => List.replicate dur (Ev.writeFrame i) ++ expectedWrites env dur (i + 1) rest

/-- Is this event a frame write? -/
def isWriteEv : Ev → Bool
  | .writeFrame _ => true
  | _ => false

/-! ### Batch Resolver: create_timelapse_video (lines 10 to 51) -/

/-- Abstract per-path filesystem view: which directories exist and the
files each contains, in discovery order (the order batch_dir.glob yields). -/
structure FileStore where
  dirExists : String → Bool
  listing : String → List String

/-- Does a filename match the glob pattern star-dot-png, i.e. end in .png? -/
def matchesPngGlob (name : String) : Bool :=
  decide (name.toList.reverse.take 4 = ['g', 'n', 'p', '.'])

/-- Lines 10 to 51: reject a non-mp4 format with ValueError, fail with
FileNotFoundError when the batch directory is absent or has no png files,
otherwise sort the images by year and encode to
output/<batch_id>/timelapse_<batch_id>.mp4 at 1 fps.  Note that this code
path treats every png in the directory as an image; no artifact-prefix
filter is applied here (artifacts are mp4 files, which the glob excludes). -/
def create_timelapse_video (env : CvEnv) (fs : FileStore) (batch_id : String)
    (output_format : String) : Except PyErr String × List Ev :=
  if output_format ≠ "mp4" then (.error .valueError, [])
  else
    let batch_dir := "output/" ++ batch_id
    if fs.dirExists batch_dir = false then (.error .fileNotFoundError, [])
    else
      let image_files := (fs.listing batch_dir).filter matchesPngGlob
      if image_files = [] then (.error .fileNotFoundError, [])
      else
        let sorted := sortByYear image_files
        let years := sorted.map extract_year
        let output_path := batch_dir ++ "/timelapse_" ++ batch_id ++ ".mp4"
        create_mp4_timelapse env sorted years output_path 1

/-! ### Frame Compositor: heap model of add_year_overlay (lines 95 to 121) -/

/-- One BGR pixel, channel values 0 to 255. -/
abbrev Pix := Nat × Nat × Nat

/-- One channel of cv2.addWeighted with weights given in tenths:
saturate(round(alpha * a + beta * b + gamma)).  Rounding is modelled as
round half up; the weights 0.7 and 0.3 of the source never produce an
exact half at integer inputs, so the tie rule is immaterial there. -/
def blendChan (a10 b10 g a b : Nat) : Nat :=
  min 255 ((a10 * a + b10 * b + 10 * g + 5) / 10)

/-- Channelwise weighted blend of two pixels. -/
def blendPix (a10 b10 g : Nat) (p q : Pix) : Pix :=
  (blendChan a10 b10 g p.1 q.1, blendChan a10 b10 g p.2.1 q.2.1,
    blendChan a10 b10 g p.2.2 q.2.2)

/-- Model of cv2.rectangle with thickness -1: fill the rectangle between
the two corner points inclusive, clipped to the image. -/
def cvRectangle (img : Img) (x1 y1 x2 y2 : Nat) (c : Pix) : Img :=
  { img with px := fun x y =>
      if x1 ≤ x ∧ x ≤ x2 ∧ y1 ≤ y ∧ y ≤ y2 ∧ x < img.cols ∧ y < img.rows then c
      else img.px x y }

/-- Model of cv2.addWeighted over whole same-sized images. -/
def cvAddWeighted (a : Img) (a10 : Nat) (b : Img) (b10 g : Nat) : Img :=
  { rows := a.rows, cols := a.cols,
    px := fun x y => blendPix a10 b10 g (a.px x y) (b.px x y) }

/-- Model of cv2.putText: paint the glyph coverage mask in the given color,
clipped to the image.  The mask abstracts the Hershey font rasterizer,
which is external library data. -/
def cvPutText (img : Img) (mask : Nat → Nat → Bool) (c : Pix) : Img :=
  { img with px := fun x y =>
      if mask x y = true ∧ x < img.cols ∧ y < img.rows then c else img.px x y }

/-- A heap of numpy image buffers: buffer contents by id, plus the next
fresh id.  Ids below next are the allocated buffers. -/
structure CvHeap where
  buf : Nat → Img
  next : Nat

/-- Model of numpy ndarray.copy: allocate a fresh buffer holding the given
image. -/
def alloc (h : CvHeap) (i : Img) : Nat × CvHeap :=
  (h.next, { buf := fun k => if k = h.next then i else h.buf k, next := h.next + 1 })

/-- In-place mutation of one buffer. -/
def setBuf (h : CvHeap) (k : Nat) (i : Img) : CvHeap :=
  { h with buf := fun j => if j = k then i else h.buf j }

/-- Lines 95 to 121 of timelapse.py.  hershey text ox oy x y tells whether
cv2.putText with FONT_HERSHEY_SIMPLEX, scale 2.0, thickness 3 covers pixel
(x, y) when rendering text at origin (ox, oy); it abstracts the external
font data.  The source also computes text_size via cv2.getTextSize but
never uses it, so that call has no observable effect and is omitted.  With
use_cv2 false the source returns the input array itself; the only call
site (line 80) and the default argument both pass true. -/
def add_year_overlay (hershey : String → Nat → Nat → Nat → Nat → Bool)
    (h : CvHeap) (img : Nat) (year : Int) (use_cv2 : Bool) : Nat × CvHeap :=
  if use_cv2 then
    let a1 := alloc h (h.buf img)
    let img_copy := a1.1
    let h1 := a1.2
    let a2 := alloc h1 (h1.buf img_copy)
    let overlay := a2.1
    let h2 := a2.2
    let h3 := setBuf h2 overlay (cvRectangle (h2.buf overlay) 10 10 200 80 (0, 0, 0))
    let h4 := setBuf h3 img_copy (cvAddWeighted (h3.buf overlay) 7 (h3.buf img_copy) 3 0)
    let h5 := setBuf h4 img_copy
      (cvPutText (h4.buf img_copy) (fun x y => hershey (toString year) 20 50 x y)
        (255, 255, 255))
    (img_copy, h5)
  else (img, h)

/-! ### Concrete data used by witnesses and counterexamples -/

/-- A constant black test image. -/
def imgK : Img := ⟨480, 640, fun _ _ => (0, 0, 0)⟩

/-- An oracle in which every OpenCV call succeeds. -/
def envAllOk : CvEnv :=
  { imread := fun _ => some imgK
    compositeRaises := fun _ => false
    writeRaises := fun _ _ => false
    openOk := fun _ => true }

/-- An oracle in which only f0.png fails to decode. -/
def envC2 : CvEnv :=
  { imread := fun f => if f = "f0.png" then none else some imgK
    compositeRaises := fun _ => false
    writeRaises := fun _ _ => false
    openOk := fun _ => true }

/-- An oracle in which only the middle file of the C2 witness fails to
decode. -/
def envSkip : CvEnv :=
  { imread := fun f => if f = "bad_1_2_3_1900.png" then none else some imgK
    compositeRaises := fun _ => false
    writeRaises := fun _ _ => false
    openOk := fun _ => true }

/-- A file store with no directories at all. -/
def fsEmpty : FileStore := { dirExists := fun _ => false, listing := fun _ => [] }

/-- An oracle in which the video container cannot be opened (openOk is
false everywhere) while the image calls all succeed. -/
def envNoOpen : CvEnv :=
  { imread := fun _ => some imgK
    compositeRaises := fun _ => false
    writeRaises := fun _ _ => false
    openOk := fun _ => false }

/-- The same oracle with an openable container. -/
def envYesOpen : CvEnv := { envNoOpen with openOk := fun _ => true }

/-- A font mask that covers no pixel at all. -/
def hersheyNone : String → Nat → Nat → Nat → Nat → Bool := fun _ _ _ _ _ => false

/-- A constant mid-gray test image. -/
def imgGray : Img := ⟨480, 640, fun _ _ => (100, 100, 100)⟩

/-- A heap holding exactly one allocated buffer, id 0, the gray image. -/
def heap1 : CvHeap := { buf := fun _ => imgGray, next := 1 }

/-! ### Helper lemmas: Sequencer -/

lemma pw_filter_key (files : List String) (k : Int) :
    (files.filter (fun f => extract_year f = k)).Pairwise keyLe := by
  refine List.pairwise_of_forall_mem_list ?_
  intro a ha b hb
  have ha2 := (List.mem_filter.mp ha).2
  have hb2 := (List.mem_filter.mp hb).2
  have ha3 : extract_year a = k := by simpa using ha2
  have hb3 : extract_year b = k := by simpa using hb2
  show extract_year a ≤ extract_year b
  rw [ha3, hb3]

lemma filter_sortByYear (files : List String) (k : Int) :
    (sortByYear files).filter (fun f => extract_year f = k) =
      files.filter (fun f => extract_year f = k) := by
  have hsub : (files.filter (fun f => extract_year f = k)).Sublist (sortByYear files) :=
    List.sublist_insertionSort (pw_filter_key files k) (List.filter_sublist files)
  have hsub2 := hsub.filter (fun f => decide (extract_year f = k))
  rw [List.filter_filter] at hsub2
  have hid : (files.filter fun a => decide (extract_year a = k) && decide (extract_year a = k))
      = files.filter (fun f => extract_year f = k) := by
    congr 1
    funext a
    by_cases h : extract_year a = k <;> simp [h]
  rw [hid] at hsub2
  have hlen : ((sortByYear files).filter (fun f => extract_year f = k)).length =
      (files.filter (fun f => extract_year f = k)).length :=
    ((List.perm_insertionSort keyLe files).filter _).length_eq
  exact (hsub2.eq_of_length hlen.symm).symm

lemma pair_sublist_of_sorted_lt {a b : String} (s : List String) :
    s.Pairwise keyLe → a ∈ s → b ∈ s → extract_year a < extract_year b →
      ([a, b]).Sublist s := by
  induction s with
  | nil => intro _ ha _ _; cases ha
  | cons x t ih =>
    intro hs ha hb hab
    rcases List.pairwise_cons.mp hs with ⟨hx, ht⟩
    rcases List.mem_cons.mp ha with rfl | hat
    · rcases List.mem_cons.mp hb with rfl | hbt
      · exact absurd hab (lt_irrefl _)
      · exact (List.singleton_sublist.mpr hbt).cons₂ a
    · rcases List.mem_cons.mp hb with rfl | hbt
      · exact absurd hab (not_lt.mpr (hx a hat))
      · exact (ih ht hat hbt hab).cons x

/-! ### Helper lemmas: encoder trace -/

lemma writeRepeat_events (env : CvEnv) (i : Nat) :
    ∀ js, ∀ e ∈ (writeRepeat env i js).2, e = Ev.writeFrame i := by
  intro js
  induction js with
  | nil => intro e he; simp [writeRepeat] at he
  | cons j js ih =>
    intro e he
    by_cases h : env.writeRaises i j
    · simp [writeRepeat, h] at he
    · simp only [writeRepeat, h, Bool.false_eq_true, if_false, List.mem_cons] at he
      rcases he with rfl | he
      · rfl
      · exact ih e he

lemma encodeLoop_events (env : CvEnv) (dur : Nat) :
    ∀ pairs i, ∀ e ∈ (encodeLoop env dur i pairs).2, ∃ j, e = Ev.writeFrame j := by
  intro pairs
  induction pairs with
  | nil => intro i e he; simp [encodeLoop] at he
  | cons p rest ih =>
    obtain ⟨f, y⟩ := p
    intro i e he
    cases him : env.imread f with
    | none =>
      rw [encodeLoop, him] at he
      exact ih (i + 1) e he
    | some img =>
      by_cases hc : env.compositeRaises i
      · rw [encodeLoop, him] at he
        simp [hc] at he
      · rw [encodeLoop, him] at he
        simp only [hc, Bool.false_eq_true, if_false] at he
        rcases hw : (writeRepeat env i (List.range dur)).1 with e1 | u
        · rw [hw] at he
          exact ⟨i, writeRepeat_events env i _ e he⟩
        · rw [hw] at he
          simp only [List.mem_append] at he
          rcases he with he | he
          · exact ⟨i, writeRepeat_events env i _ e he⟩
          · exact ih (i + 1) e he

lemma create_mp4_trace_shape (env : CvEnv) (files : List String) (years : List Int)
    (out : String) (fps : Nat) (f0 : String) (img : Img)
    (hh : files.head? = some f0) (him : env.imread f0 = some img) :
    (create_mp4_timelapse env files years out fps).2
      = Ev.openContainer ::
          (encodeLoop env (frame_duration fps) 0 (files.zip years)).2 ++ [Ev.release] := by
  simp only [create_mp4_timelapse, hh, him]
  rcases hr : (encodeLoop env (frame_duration fps) 0 (files.zip years)).1 with e | u <;>
    simp [hr]

lemma writeRepeat_noRaise (env : CvEnv) (i : Nat)
    (hw : ∀ j, env.writeRaises i j = false) :
    ∀ js, writeRepeat env i js = (.ok (), List.replicate js.length (Ev.writeFrame i)) := by
  intro js
  induction js with
  | nil => rfl
  | cons j js ih =>
    rw [writeRepeat, hw j, ih]
    simp [List.replicate_succ]

lemma encodeLoop_noRaise (env : CvEnv) (dur : Nat)
    (hc : ∀ n, env.compositeRaises n = false)
    (hw : ∀ n j, env.writeRaises n j = false) :
    ∀ pairs i, encodeLoop env dur i pairs = (.ok (), expectedWrites env dur i pairs) := by
  intro pairs
  induction pairs with
  | nil => intro i; rfl
  | cons p rest ih =>
    obtain ⟨f, y⟩ := p
    intro i
    cases him : env.imread f with
    | none => rw [encodeLoop, him, expectedWrites, him, ih]
    | some img =>
      rw [encodeLoop, him, expectedWrites, him]
      rw [hc i]
      simp only [Bool.false_eq_true, if_false]
      rw [writeRepeat_noRaise env i (hw i) (List.range dur), List.length_range, ih]

lemma create_mp4_noRaise (env : CvEnv) (f0 : String) (rest : List String)
    (years : List Int) (out : String) (fps : Nat)
    (h0 : (env.imread f0).isSome = true)
    (hc : ∀ n, env.compositeRaises n = false)
    (hw : ∀ n j, env.writeRaises n j = false) :
    create_mp4_timelapse env (f0 :: rest) years out fps
      = (.ok out, Ev.openContainer ::
          expectedWrites env (frame_duration fps) 0 ((f0 :: rest).zip years)
            ++ [Ev.release]) := by
  obtain ⟨img, him⟩ := Option.isSome_iff_exists.mp h0
  simp only [create_mp4_timelapse, List.head?_cons, him]
  rw [encodeLoop_noRaise env (frame_duration fps) hc hw ((f0 :: rest).zip years) 0]

lemma count_expectedWrites_lt (env : CvEnv) (dur : Nat) :
    ∀ (pairs : List (String × Int)) (base i : Nat), i < base →
      (expectedWrites env dur base pairs).count (Ev.writeFrame i) = 0 := by
  intro pairs
  induction pairs with
  | nil => intro base i _; rfl
  | cons p rest ih =>
    obtain ⟨f, y⟩ := p
    intro base i hib
    cases him : env.imread f with
    | none =>
      rw [expectedWrites, him]
      exact ih (base + 1) i (Nat.lt_succ_of_lt hib)
    | some img =>
      rw [expectedWrites, him, List.count_append]
      rw [ih (base + 1) i (Nat.lt_succ_of_lt hib)]
      rw [List.count_replicate]
      have hne : (Ev.writeFrame base == Ev.writeFrame i) = false := by
        simp only [beq_eq_false_iff_ne, ne_eq, Ev.writeFrame.injEq]
        omega
      rw [hne]
      rfl

lemma count_expectedWrites_get (env : CvEnv) (dur : Nat) :
    ∀ (pairs : List (String × Int)) (base k : Nat) (hk : k < pairs.length),
      (env.imread (pairs.get ⟨k, hk⟩).1).isSome = true →
      (expectedWrites env dur base pairs).count (Ev.writeFrame (base + k)) = dur := by
  intro pairs
  induction pairs with
  | nil => intro base k hk; simp at hk
  | cons p rest ih =>
    obtain ⟨f, y⟩ := p
    intro base k hk hdec
    cases k with
    | zero =>
      have hdec2 : (env.imread f).isSome = true := by simpa using hdec
      obtain ⟨img, him⟩ := Option.isSome_iff_exists.mp hdec2
      rw [expectedWrites, him, List.count_append, Nat.add_zero]
      rw [count_expectedWrites_lt env dur rest (base + 1) base (Nat.lt_succ_self base)]
      rw [List.count_replicate]
      simp
    | succ k2 =>
      have hk2 : k2 < rest.length := by simpa using hk
      have hdec2 : (env.imread (rest.get ⟨k2, hk2⟩).1).isSome = true := by
        simpa using hdec
      have harith : base + (k2 + 1) = (base + 1) + k2 := by omega
      cases him : env.imread f with
      | none =>
        rw [expectedWrites, him, harith]
        exact ih (base + 1) k2 hk2 hdec2
      | some img =>
        rw [expectedWrites, him, List.count_append, harith]
        rw [ih (base + 1) k2 hk2 hdec2]
        rw [List.count_replicate]
        have hne : (Ev.writeFrame base == Ev.writeFrame (base + 1 + k2)) = false := by
          simp only [beq_eq_false_iff_ne, ne_eq, Ev.writeFrame.injEq]
          omega
        rw [hne]
        simp

lemma length_expectedWrites (env : CvEnv) (dur : Nat) :
    ∀ (pairs : List (String × Int)) (base : Nat),
      (expectedWrites env dur base pairs).length
        = dur * (pairs.filter (fun p => (env.imread p.1).isSome)).length := by
  intro pairs
  induction pairs with
  | nil => intro base; rfl
  | cons p rest ih =>
    obtain ⟨f, y⟩ := p
    intro base
    cases him : env.imread f with
    | none =>
      rw [expectedWrites, him, ih (base + 1)]
      simp [List.filter, him]
    | some img =>
      rw [expectedWrites, him]
      rw [List.length_append, List.length_replicate, ih (base + 1)]
      simp only [List.filter, him, Option.isSome_some]
      rw [List.length_cons]
      ring

lemma filter_isWrite_expectedWrites (env : CvEnv) (dur : Nat) :
    ∀ (pairs : List (String × Int)) (base : Nat),
      (expectedWrites env dur base pairs).filter isWriteEv
        = expectedWrites env dur base pairs := by
  intro pairs
  induction pairs with
  | nil => intro base; rfl
  | cons p rest ih =>
    obtain ⟨f, y⟩ := p
    intro base
    cases him : env.imread f with
    | none => rw [expectedWrites, him, ih (base + 1)]
    | some img =>
      rw [expectedWrites, him]
      rw [List.filter_append, ih (base + 1)]
      congr 1
      rw [List.filter_eq_self]
      intro a ha
      rw [List.eq_of_mem_replicate ha]
      rfl

/-! ### The claims -/

/-- Claim C1: on every run of create_mp4_timelapse that reaches the point
where the output container is opened, the encoder handle is released
exactly once on every exit path (all frame writes succeeding, or an
exception while compositing or writing), and the release precedes the
surfacing of any error: release is the final event of the trace while the
error, if any, is only in the returned value.  Quantified over all oracle
behaviors. -/
theorem c1_finalize_exactly_once (env : CvEnv) (files : List String) (years : List Int)
    (out : String) (fps : Nat)
    (hopen : Ev.openContainer ∈ (create_mp4_timelapse env files years out fps).2) :
    (create_mp4_timelapse env files years out fps).2.count Ev.release = 1 ∧
    (create_mp4_timelapse env files years out fps).2.getLast? = some Ev.release := by
  cases hh : files.head? with
  | none => simp [create_mp4_timelapse, hh] at hopen
  | some f0 =>
    cases him : env.imread f0 with
    | none => simp [create_mp4_timelapse, hh, him] at hopen
    | some img =>
      have htr := create_mp4_trace_shape env files years out fps f0 img hh him
      have hnr : Ev.release ∉ (encodeLoop env (frame_duration fps) 0 (files.zip years)).2 := by
        intro hmem
        obtain ⟨j, hj⟩ := encodeLoop_events env _ _ _ _ hmem
        cases hj
      rw [htr]
      constructor
      · have h0 : (encodeLoop env (frame_duration fps) 0 (files.zip years)).2.count Ev.release
            = 0 := List.count_eq_zero.mpr hnr
        simp [List.count_cons, List.count_append, h0]
      · show ((Ev.openContainer ::
            (encodeLoop env (frame_duration fps) 0 (files.zip years)).2)
              ++ [Ev.release]).getLast? = some Ev.release
        exact List.getLast?_concat _

/-- Witness for C1 at a concrete successful run. -/
theorem c1_witness :
    (create_mp4_timelapse envAllOk ["a_1_2_3_2000.png"] [2000] "o.mp4" 1).2.count Ev.release = 1 ∧
    (create_mp4_timelapse envAllOk ["a_1_2_3_2000.png"] [2000] "o.mp4" 1).2.getLast?
      = some Ev.release :=
  c1_finalize_exactly_once envAllOk ["a_1_2_3_2000.png"] [2000] "o.mp4" 1 (by decide)

/-- Counterexample to claim C2 as stated: a decode failure at position 0 is
fatal to the whole job.  With only f0.png failing to decode (f1.png is
decodable), the run raises ValueError before the container is ever opened
and writes nothing, instead of skipping the frame and continuing. -/
theorem c2_counterexample :
    (envC2.imread "f1.png").isSome = true ∧
    create_mp4_timelapse envC2 ["f0.png", "f1.png"] [1850, 1950] "out.mp4" 1
      = (.error .valueError, []) :=
  ⟨rfl, rfl⟩

/-- Claim C2 amended: provided the first image decodes (its failure aborts
the job, per the counterexample) and no other OpenCV call raises, a decode
failure at any later position only skips that frame: the job returns the
output path and the trace writes exactly the successfully decoded subset,
each decoded frame repeated frame_duration times in order, as expectedWrites
states. -/
theorem c2_decode_failure_skips_frame (env : CvEnv) (f0 : String) (rest : List String)
    (years : List Int) (out : String) (fps : Nat)
    (h0 : (env.imread f0).isSome = true)
    (hc : ∀ n, env.compositeRaises n = false)
    (hw : ∀ n j, env.writeRaises n j = false) :
    create_mp4_timelapse env (f0 :: rest) years out fps
      = (.ok out, Ev.openContainer ::
          expectedWrites env (frame_duration fps) 0 ((f0 :: rest).zip years)
            ++ [Ev.release]) :=
  create_mp4_noRaise env f0 rest years out fps h0 hc hw

/-- Witness for C2: the middle image fails to decode, the job still
succeeds. -/
theorem c2_witness :
    create_mp4_timelapse envSkip
        ["a_1_2_3_1850.png", "bad_1_2_3_1900.png", "c_1_2_3_1950.png"]
        [1850, 1900, 1950] "out.mp4" 1
      = (.ok "out.mp4", Ev.openContainer ::
          expectedWrites envSkip 2 0
            (["a_1_2_3_1850.png", "bad_1_2_3_1900.png", "c_1_2_3_1950.png"].zip
              [1850, 1900, 1950]) ++ [Ev.release]) :=
  c2_decode_failure_skips_frame envSkip "a_1_2_3_1850.png"
    ["bad_1_2_3_1900.png", "c_1_2_3_1950.png"] [1850, 1900, 1950] "out.mp4" 1
    rfl (fun _ => rfl) (fun _ _ => rfl)

/-- Counterexample to claim C3 as stated: at 2 fps a decoded image is
written once (frame_duration 2 = max 1 (2 / 2) = 1), not
max(1, displaySeconds * framesPerSecond) = max(1, 2 * 2) = 4 times. -/
theorem c3_counterexample :
    (create_mp4_timelapse envAllOk ["a_1_2_3_2000.png"] [2000] "o.mp4" 2).2.count
        (Ev.writeFrame 0) = 1 ∧
    (1 : Nat) ≠ max 1 (2 * 2) :=
  ⟨rfl, by decide⟩

/-- Claim C3 amended: in a run without OpenCV failures, each successfully
decoded image at position i is written exactly frame_duration fps times,
where frame_duration fps = 2 when fps = 1 and max 1 (fps / 2) otherwise
(integer division); in particular at 1 fps each image is written exactly
2 times. -/
theorem c3_repeat_write_count (env : CvEnv) (f0 : String) (rest : List String)
    (years : List Int) (out : String) (fps i : Nat)
    (h0 : (env.imread f0).isSome = true)
    (hc : ∀ n, env.compositeRaises n = false)
    (hw : ∀ n j, env.writeRaises n j = false)
    (hi : i < ((f0 :: rest).zip years).length)
    (hdec : (env.imread (((f0 :: rest).zip years).get ⟨i, hi⟩).1).isSome = true) :
    (create_mp4_timelapse env (f0 :: rest) years out fps).2.count (Ev.writeFrame i)
        = frame_duration fps ∧
    frame_duration 1 = 2 := by
  refine ⟨?_, rfl⟩
  rw [create_mp4_noRaise env f0 rest years out fps h0 hc hw]
  have hmain := count_expectedWrites_get env (frame_duration fps)
    ((f0 :: rest).zip years) 0 i hi hdec
  rw [Nat.zero_add] at hmain
  simp [List.count_cons, List.count_append, hmain]

/-- Witness for C3 at fps 1, position 1. -/
theorem c3_witness :
    (create_mp4_timelapse envAllOk ["a_1_2_3_1850.png", "b_1_2_3_1950.png"]
        [1850, 1950] "o.mp4" 1).2.count (Ev.writeFrame 1) = frame_duration 1 ∧
    frame_duration 1 = 2 :=
  c3_repeat_write_count envAllOk "a_1_2_3_1850.png" ["b_1_2_3_1950.png"]
    [1850, 1950] "o.mp4" 1 1 rfl (fun _ => rfl) (fun _ _ => rfl) (by decide) rfl

/-- Claim C4: the Sequencer output is sorted ascending by the extracted
year; equal keys keep their input/discovery order (the filtered-by-key
subsequence of the output equals that of the input, the standard stability
characterization); and every discovery order of the three example files
a_1_2_3_1850.png, b_1_2_3_1950.png, c_1_2_3_1900.png yields the year
order 1850, 1900, 1950. -/
theorem c4_sequencer_sorted_stable :
    (∀ files : List String, List.Sorted keyLe (sortByYear files)) ∧
    (∀ (files : List String) (k : Int),
      (sortByYear files).filter (fun f => extract_year f = k) =
        files.filter (fun f => extract_year f = k)) ∧
    (∀ l : List String,
      l.Perm ["a_1_2_3_1850.png", "b_1_2_3_1950.png", "c_1_2_3_1900.png"] →
      (sortByYear l).map extract_year = [1850, 1900, 1950]) := by
  refine ⟨fun files => List.sorted_insertionSort keyLe files, filter_sortByYear, ?_⟩
  intro l hperm
  have hsorted : List.Sorted (fun m n : Int => m ≤ n) ((sortByYear l).map extract_year) :=
    List.Pairwise.map _ (fun {p q} h => h) (List.sorted_insertionSort keyLe l)
  have hp2 : ((sortByYear l).map extract_year).Perm [1850, 1900, 1950] := by
    have h1 : ((sortByYear l).map extract_year).Perm (l.map extract_year) :=
      (List.perm_insertionSort keyLe l).map extract_year
    have h2 : (l.map extract_year).Perm
        (["a_1_2_3_1850.png", "b_1_2_3_1950.png", "c_1_2_3_1900.png"].map extract_year) :=
      hperm.map extract_year
    have h3 : ["a_1_2_3_1850.png", "b_1_2_3_1950.png", "c_1_2_3_1900.png"].map extract_year
        = [1850, 1950, 1900] := by decide
    have h4 : ([1850, 1950, 1900] : List Int).Perm [1850, 1900, 1950] :=
      List.Perm.cons 1850 (List.Perm.swap 1900 1950 [])
    exact ((h1.trans h2).trans (h3 ▸ List.Perm.refl _)).trans h4
  exact List.eq_of_perm_of_sorted hp2 hsorted (by decide)

/-- Witness for C4 at one concrete discovery order. -/
theorem c4_witness :
    (sortByYear ["b_1_2_3_1950.png", "a_1_2_3_1850.png", "c_1_2_3_1900.png"]).map extract_year
      = [1850, 1900, 1950] :=
  c4_sequencer_sorted_stable.2.2 _ (by decide)

/-- Claim C5 amended: an image whose final underscore-delimited stem field
does not parse as an integer is assigned OrderingKey 0 instead of raising,
and it sorts before every image whose parsed year is positive.  (As stated
the claim fails: a valid negative year sorts before the sentinel 0, per the
counterexample.) -/
theorem c5_zero_key_sorts_before_positive
    (l : List String) (m v : String) (hm : m ∈ l) (hv : v ∈ l)
    (hbad : parseIntPy ((splitOnChar '_' (stemChars m.toList)).getLastD []) = none)
    (hpos : 0 < extract_year v) :
    extract_year m = 0 ∧ ([m, v]).Sublist (sortByYear l) := by
  have hm0 : extract_year m = 0 := by
    unfold extract_year
    rw [hbad]
  refine ⟨hm0, ?_⟩
  refine pair_sublist_of_sorted_lt (sortByYear l)
    (List.sorted_insertionSort keyLe l) ?_ ?_ ?_
  · exact (List.mem_insertionSort keyLe).mpr hm
  · exact (List.mem_insertionSort keyLe).mpr hv
  · rw [hm0]; exact hpos

/-- Witness for C5: the unparsable file sorts before a 1900 file. -/
theorem c5_witness :
    extract_year "d_1_2_3_oops.png" = 0 ∧
      (["d_1_2_3_oops.png", "x_1_2_3_1900.png"]).Sublist
        (sortByYear ["x_1_2_3_1900.png", "d_1_2_3_oops.png"]) :=
  c5_zero_key_sorts_before_positive _ _ _ (by decide) (by decide) (by decide) (by decide)

/-- Counterexample to claim C5 as stated (an unparsable image sorts before
every image with a valid year): e_1_2_3_-5.png has the valid year -5, which
int() accepts, and it sorts before the sentinel-0 file d_1_2_3_oops.png. -/
theorem c5_counterexample :
    ¬ (∀ (l : List String) (m v : String), m ∈ l → v ∈ l →
        parseIntPy ((splitOnChar '_' (stemChars m.toList)).getLastD []) = none →
        (parseIntPy ((splitOnChar '_' (stemChars v.toList)).getLastD [])).isSome = true →
        ([m, v]).Sublist (sortByYear l)) := by
  intro h
  have hs := h ["d_1_2_3_oops.png", "e_1_2_3_-5.png"] "d_1_2_3_oops.png" "e_1_2_3_-5.png"
    (by decide) (by decide) (by decide) (by decide)
  rw [show sortByYear ["d_1_2_3_oops.png", "e_1_2_3_-5.png"]
      = ["e_1_2_3_-5.png", "d_1_2_3_oops.png"] from by decide] at hs
  have heq := hs.eq_of_length (by decide)
  exact absurd heq (by decide)

/-- Claim C6: when the batch directory does not exist, or it contains zero
png files, create_timelapse_video (called with the mp4 format of
CreateTimelapse) fails with FileNotFoundError and its trace is empty: the
video writer is never constructed, so no file is created at the artifact
path. -/
theorem c6_notfound_no_artifact (env : CvEnv) (fs : FileStore) (batch_id : String)
    (h : fs.dirExists ("output/" ++ batch_id) = false ∨
         (fs.listing ("output/" ++ batch_id)).filter matchesPngGlob = []) :
    create_timelapse_video env fs batch_id "mp4" = (.error .fileNotFoundError, []) := by
  rcases h with h | h
  · rw [create_timelapse_video, if_neg (by simp), if_pos h]
  · rw [create_timelapse_video, if_neg (by simp)]
    by_cases hd : fs.dirExists ("output/" ++ batch_id) = false
    · rw [if_pos hd]
    · rw [if_neg hd, if_pos h]

/-- Witness for C6 on a store without the batch directory. -/
theorem c6_witness :
    create_timelapse_video envAllOk fsEmpty "batch1" "mp4"
      = (.error .fileNotFoundError, []) :=
  c6_notfound_no_artifact envAllOk fsEmpty "batch1" (Or.inl rfl)

/-- Claim C7: at 1 fps, in a run without OpenCV failures whose first image
decodes, the number of video frames written equals 2 times the number of
images of the sequence that decode successfully. -/
theorem c7_total_frame_count (env : CvEnv) (f0 : String) (rest : List String)
    (years : List Int) (out : String)
    (h0 : (env.imread f0).isSome = true)
    (hc : ∀ n, env.compositeRaises n = false)
    (hw : ∀ n j, env.writeRaises n j = false) :
    ((create_mp4_timelapse env (f0 :: rest) years out 1).2.filter isWriteEv).length
      = 2 * (((f0 :: rest).zip years).filter
              (fun p => (env.imread p.1).isSome)).length := by
  rw [create_mp4_noRaise env f0 rest years out 1 h0 hc hw]
  show (List.filter isWriteEv
      (Ev.openContainer :: (expectedWrites env (frame_duration 1) 0
        ((f0 :: rest).zip years) ++ [Ev.release]))).length = _
  rw [List.filter_cons_of_neg (by decide), List.filter_append]
  rw [filter_isWrite_expectedWrites env (frame_duration 1) ((f0 :: rest).zip years) 0]
  rw [show List.filter isWriteEv [Ev.release] = [] from rfl]
  rw [List.append_nil, length_expectedWrites env (frame_duration 1) ((f0 :: rest).zip years) 0]
  rfl

/-- Witness for C7: three images of which one fails to decode give
2 * 2 = 4 written frames. -/
theorem c7_witness :
    ((create_mp4_timelapse envSkip
        ["a_1_2_3_1850.png", "bad_1_2_3_1900.png", "c_1_2_3_1950.png"]
        [1850, 1900, 1950] "out.mp4" 1).2.filter isWriteEv).length
      = 2 * ((["a_1_2_3_1850.png", "bad_1_2_3_1900.png", "c_1_2_3_1950.png"].zip
              [1850, 1900, 1950]).filter
              (fun p => (envSkip.imread p.1).isSome)).length :=
  c7_total_frame_count envSkip "a_1_2_3_1850.png"
    ["bad_1_2_3_1900.png", "c_1_2_3_1950.png"] [1850, 1900, 1950] "out.mp4"
    rfl (fun _ => rfl) (fun _ _ => rfl)

/-- Claim C8 amended: at every pixel inside the backing rectangle (fixed
offsets 10,10 to 200,80, the same constants for every frame and year) that
the year text does not cover, the composited frame equals the blend that
gives the rectangle layer weight 0.7 and the original frame weight 0.3 (the
cv2.addWeighted call of line 104).  The claim as stated, a 0.2 rectangle
weight, is refuted by the counterexample. -/
theorem c8_rectangle_blend_weight
    (hershey : String → Nat → Nat → Nat → Nat → Bool)
    (h : CvHeap) (img : Nat) (year : Int) (x y : Nat)
    (himg : img < h.next)
    (hx1 : 10 ≤ x) (hx2 : x ≤ 200) (hy1 : 10 ≤ y) (hy2 : y ≤ 80)
    (hxb : x < (h.buf img).cols) (hyb : y < (h.buf img).rows)
    (hmask : hershey (toString year) 20 50 x y = false) :
    ((add_year_overlay hershey h img year true).2.buf
        (add_year_overlay hershey h img year true).1).px x y
      = blendPix 7 3 0 (0, 0, 0) ((h.buf img).px x y) := by
  have hne : h.next ≠ h.next + 1 := by omega
  simp [add_year_overlay, alloc, setBuf, cvPutText, cvRectangle, cvAddWeighted,
    hmask, hx1, hx2, hy1, hy2, hxb, hyb, hne]

/-- Witness for C8 at pixel (199, 79) of a gray frame. -/
theorem c8_witness :
    ((add_year_overlay hersheyNone heap1 0 1850 true).2.buf
        (add_year_overlay hersheyNone heap1 0 1850 true).1).px 199 79
      = blendPix 7 3 0 (0, 0, 0) ((heap1.buf 0).px 199 79) :=
  c8_rectangle_blend_weight hersheyNone heap1 0 1850 199 79 (by decide) (by decide)
    (by decide) (by decide) (by decide) (by decide) (by decide) rfl

/-- Counterexample to claim C8 as stated: the rectangle is not blended at
weight 0.2.  At pixel (199, 79) of a uniform gray-100 frame the composited
value is 30 per channel (0.7 weight on the black rectangle, 0.3 on the
frame), while a 0.2 rectangle weight would give 80 per channel. -/
theorem c8_counterexample :
    ¬ (∀ (hershey : String → Nat → Nat → Nat → Nat → Bool)
        (h : CvHeap) (img : Nat) (year : Int) (x y : Nat),
        img < h.next → 10 ≤ x → x ≤ 200 → 10 ≤ y → y ≤ 80 →
        x < (h.buf img).cols → y < (h.buf img).rows →
        hershey (toString year) 20 50 x y = false →
        ((add_year_overlay hershey h img year true).2.buf
            (add_year_overlay hershey h img year true).1).px x y
          = blendPix 2 8 0 (0, 0, 0) ((h.buf img).px x y)) := by
  intro hclaim
  have hfalse := hclaim hersheyNone heap1 0 1850 199 79 (by decide) (by decide)
    (by decide) (by decide) (by decide) (by decide) (by decide) rfl
  have hlhs : ((add_year_overlay hersheyNone heap1 0 1850 true).2.buf
      (add_year_overlay hersheyNone heap1 0 1850 true).1).px 199 79 = (30, 30, 30) := rfl
  have hrhs : blendPix 2 8 0 (0, 0, 0) ((heap1.buf 0).px 199 79) = (80, 80, 80) := rfl
  rw [hlhs, hrhs] at hfalse
  exact absurd hfalse (by decide)

/-- Claim C9, the code evaluated at the failing input: with an output
container that cannot be opened (openOk false everywhere, as for an invalid
output path), create_mp4_timelapse does not fail with any encoder
initialization error: it runs the whole write loop against the unopened
writer and returns the output path as a success, and its behavior is
identical to the run with an openable container, because the source never
checks whether the writer opened (cv2.VideoWriter does not raise on
failure and isOpened is never called). -/
theorem c9_open_failure_not_detected :
    (create_mp4_timelapse envNoOpen ["img_1_2_3_2000.png"] [2000] "invalid/out.mp4" 1).1
        = .ok "invalid/out.mp4" ∧
    (create_mp4_timelapse envNoOpen ["img_1_2_3_2000.png"] [2000] "invalid/out.mp4" 1).2
        = [Ev.openContainer, Ev.writeFrame 0, Ev.writeFrame 0, Ev.release] ∧
    create_mp4_timelapse envNoOpen ["img_1_2_3_2000.png"] [2000] "invalid/out.mp4" 1
        = create_mp4_timelapse envYesOpen ["img_1_2_3_2000.png"] [2000] "invalid/out.mp4" 1 :=
  ⟨rfl, rfl, rfl⟩

/-- Claim C10: add_year_overlay (with use_cv2 true, the default and the
only call-site value) returns a newly allocated buffer, distinct from the
input buffer, and the input buffer is unchanged in the resulting heap. -/
theorem c10_overlay_fresh_and_input_unchanged
    (hershey : String → Nat → Nat → Nat → Nat → Bool)
    (h : CvHeap) (img : Nat) (year : Int) (himg : img < h.next) :
    (add_year_overlay hershey h img year true).1 = h.next ∧
    (add_year_overlay hershey h img year true).1 ≠ img ∧
    (add_year_overlay hershey h img year true).2.buf img = h.buf img := by
  have h1 : img ≠ h.next := Nat.ne_of_lt himg
  have h2 : img ≠ h.next + 1 := by omega
  refine ⟨rfl, fun hcon => h1 hcon.symm, ?_⟩
  simp [add_year_overlay, alloc, setBuf, h1, h2]

/-- Witness for C10 on the one-buffer heap. -/
theorem c10_witness :
    (add_year_overlay hersheyNone heap1 0 1850 true).1 = heap1.next ∧
    (add_year_overlay hersheyNone heap1 0 1850 true).1 ≠ 0 ∧
    (add_year_overlay hersheyNone heap1 0 1850 true).2.buf 0 = heap1.buf 0 :=
  c10_overlay_fresh_and_input_unchanged hersheyNone heap1 0 1850 (by decide)

end TimeCapsule
